import Mathlib

/-!
Verification development for the lab-apps controller (`src/7050/tasks/1/init/main.py`).

The file shallowly embeds the controller's core path:
* a JSON value model with Python dict/attribute semantics (`Json`, `pyGet`,
  `pyGetItem`, `pySetPath`, ...), used by the resource orchestrator
  `_execute_script` (lines 209-306 of the source);
* the per-resource rewrite and creation loop (`checkFields`,
  `transformResource`, `stepOf`, `runLoop`, `execOutcome`);
* a POSIX `pathlib` model (`PyPath`) for the script-path validation in
  `handle_lab_action` (lines 320-345);
* a model of the git repo cache `_get_repo_path` (lines 100-177) over an
  abstract world of redis/filesystem/git outcomes, recording effects.

Python exceptions are modelled with `Except String`; the string carries the
exception class for readability.  Machine-level details (real subprocesses,
the kubernetes client library internals, symlinks) are outside the model.
-/

/-- JSON values as produced by `json.loads`; objects are association lists in
document order.  JSON numbers are restricted to integers (no claim involves
non-integer numbers). -/
inductive Json where
  | null
  | bool (b : Bool)
  | num (n : Int)
  | str (s : String)
  | arr (elems : List Json)
  | obj (fields : List (String × Json))

/-- Lookup of a key in an object's field list (Python dict `d[k]` / `d.get(k)`
semantics: keys are unique in practice; the first binding wins). -/
def jlookup : List (String × Json) → String → Option Json
  | [], _ => none
  | (k', v) :: rest, k => if k' = k then some v else jlookup rest k

/-- Python dict item assignment `d[k] = v`: replace the existing binding or
append a new one. -/
def jinsert : List (String × Json) → String → Json → List (String × Json)
  | [], k, v => [(k, v)]
  | (k', v') :: rest, k, v =>
    if k' = k then (k, v) :: rest else (k', v') :: jinsert rest k v

/-- Python truthiness of a JSON value (`bool(x)`). -/
def truthy : Json → Bool
  | .null => false
  | .bool b => b
  | .num n => n != 0
  | .str s => !s.isEmpty
  | .arr xs => !xs.isEmpty
  | .obj fs => !fs.isEmpty

mutual

/-- Python `repr` of a JSON value (string escaping inside `repr` is not
modelled; no claim depends on it). -/
def pyRepr : Json → String
  | .null => "None"
  | .bool true => "True"
  | .bool false => "False"
  | .num n => toString n
  | .str s => "'" ++ s ++ "'"
  | .arr xs => "[" ++ pyReprList xs ++ "]"
  | .obj fs => "\x7b" ++ pyReprFields fs ++ "\x7d"

def pyReprList : List Json → String
  | [] => ""
  | [x] => pyRepr x
  | x :: y :: rest => pyRepr x ++ ", " ++ pyReprList (y :: rest)

def pyReprFields : List (String × Json) → String
  | [] => ""
  | [(k, v)] => "'" ++ k ++ "': " ++ pyRepr v
  | (k, v) :: p :: rest => "'" ++ k ++ "': " ++ pyRepr v ++ ", " ++ pyReprFields (p :: rest)

end

/-- Python `str` of a JSON value, as used by f-string interpolation. -/
def pyStr : Json → String
  | .null => "None"
  | .bool true => "True"
  | .bool false => "False"
  | .num n => toString n
  | .str s => s
  | .arr xs => pyRepr (.arr xs)
  | .obj fs => pyRepr (.obj fs)

/-- Python `x.get(k)`: `None` when the key is absent, `AttributeError` when
`x` is not a dict. -/
def pyGet (j : Json) (k : String) : Except String (Option Json) :=
  match j with
  | .obj fs => .ok (jlookup fs k)
  | _ => .error ("AttributeError: object has no attribute get (key " ++ k ++ ")")

/-- Python `x[k]`: `KeyError` when absent, `TypeError` when `x` is not a dict. -/
def pyGetItem (j : Json) (k : String) : Except String Json :=
  match j with
  | .obj fs =>
    match jlookup fs k with
    | some v => .ok v
    | none => .error ("KeyError: " ++ k)
  | _ => .error ("TypeError: object is not subscriptable (key " ++ k ++ ")")

/-- Python `x[k] = v`: `TypeError` when `x` is not a dict. -/
def pySetItem (j : Json) (k : String) (v : Json) : Except String Json :=
  match j with
  | .obj fs => .ok (.obj (jinsert fs k v))
  | _ => .error ("TypeError: object does not support item assignment (key " ++ k ++ ")")

/-- Python `x[p1][p2]...[pn][k] = v`: navigate the path with `__getitem__`,
assign at the final key.  JSON values are trees (no aliasing is produced by
`json.loads`), so re-inserting the updated child models in-place mutation. -/
def pySetPath (j : Json) : List String → String → Json → Except String Json
  | [], k, v => pySetItem j k v
  | p :: ps, k, v => do
    let child ← pyGetItem j p
    let child' ← pySetPath child ps k v
    pySetItem j p child'

/-- Python `k in x` for the dict case.  In the orchestrator this is only ever
reached with `x` a dict (a non-dict `metadata` raises earlier, at
`resource.get("metadata", {}).get("name")`), so the non-dict case is
modelled as an error. -/
def pyContains (j : Json) (k : String) : Except String Bool :=
  match j with
  | .obj fs => .ok (jlookup fs k).isSome
  | _ => .error ("TypeError: argument of type is not a container (key " ++ k ++ ")")

/-- Pure navigation of object paths, used only to state properties of the
values the model produces (not part of the embedded code). -/
def Json.getPath : Json → List String → Option Json
  | j, [] => some j
  | .obj fs, k :: ks =>
    match jlookup fs k with
    | some v => v.getPath ks
    | none => none
  | _, _ :: _ => none

/-- Python `x == "lit"` where `x` is an arbitrary JSON value: true exactly for
the equal string. -/
def isStrEq (j : Json) (s : String) : Bool :=
  match j with
  | .str t => t == s
  | _ => false

/-! ## The resource orchestrator (`_execute_script`, source lines 209-306) -/

/-- The four per-resource values read at the top of the loop (source lines
244-247).  Missing keys give `Json.null` (Python `None`); the namespace
defaults to the string `"default"` only when the key is absent. -/
structure FieldInfo where
  kind : Json
  apiVersion : Json
  name : Json
  nspace : Json

/-- Source lines 244-251: read `kind`, `apiVersion`, `metadata.name`,
`metadata.namespace` and apply the `all([kind, api_version, name])`
malformed-resource filter.  `ok none` is the `continue` (skip) outcome. -/
def checkFields (res : Json) : Except String (Option FieldInfo) := do
  let kind := (← pyGet res "kind").getD .null
  let apiVersion := (← pyGet res "apiVersion").getD .null
  let metaForName := (← pyGet res "metadata").getD (.obj [])
  let name := (← pyGet metaForName "name").getD .null
  let metaForNs := (← pyGet res "metadata").getD (.obj [])
  let nspace := (← pyGet metaForNs "namespace").getD (.str "default")
  if truthy kind && truthy apiVersion && truthy name then
    pure (some ⟨kind, apiVersion, name, nspace⟩)
  else
    pure none

/-- Source lines 253-269: rename the resource to the owner-prefixed name, add
the `lab-owner` label, and rewrite the Deployment selector/template labels or
the Service selector. -/
def transformResource (owner : String) (kind : Json) (prefixedName : String)
    (res : Json) : Except String Json := do
  let res1 ← pySetPath res ["metadata"] "name" (.str prefixedName)
  let meta1 ← pyGetItem res1 "metadata"
  let hasLabels ← pyContains meta1 "labels"
  let res2 ← if hasLabels then pure res1 else pySetPath res1 ["metadata"] "labels" (.obj [])
  let res3 ← pySetPath res2 ["metadata", "labels"] "lab-owner" (.str owner)
  if isStrEq kind "Deployment" then
    let res4 ← pySetPath res3 ["spec", "selector", "matchLabels"] "app" (.str prefixedName)
    pySetPath res4 ["spec", "template", "metadata", "labels"] "app" (.str prefixedName)
  else if isStrEq kind "Service" then
    pySetPath res3 ["spec", "selector"] "app" (.str prefixedName)
  else
    pure res3

/-- Source lines 237-240: the `api_map` keys. -/
def registeredApi (j : Json) : Bool :=
  isStrEq j "apps/v1" || isStrEq j "core/v1"

/-- Source lines 282-286: the `create_methods` keys. -/
def registeredKind (j : Json) : Bool :=
  isStrEq j "Deployment" || isStrEq j "Service"

/-- Python dict keys must be hashable: a JSON array (`list`) or object
(`dict`) is not; every other JSON value is. -/
def hashableKey : Json → Bool
  | .arr _ => false
  | .obj _ => false
  | _ => true

/-- `api_map.get(api_version)` (source line 272): `dict.get` hashes its
argument, so an unhashable key raises `TypeError`; any other value either
matches one of the string keys or returns `None`.  The boolean says whether
a client was found. -/
def apiMapGet (j : Json) : Except String Bool :=
  match j with
  | .arr _ => .error "TypeError: unhashable type: 'list'"
  | .obj _ => .error "TypeError: unhashable type: 'dict'"
  | _ => .ok (registeredApi j)

/-- `create_methods.get(kind)` (source line 287), with the same `dict.get`
hashability behaviour as `apiMapGet`.  The `TypeError` escapes the handler:
source line 295 catches only `ApiException`. -/
def createMethodsGet (j : Json) : Except String Bool :=
  match j with
  | .arr _ => .error "TypeError: unhashable type: 'list'"
  | .obj _ => .error "TypeError: unhashable type: 'dict'"
  | _ => .ok (registeredKind j)

/-- What one loop iteration decides to do with a resource: skip it
(malformed, unknown apiVersion, or unknown kind) or send a creation call. -/
inductive StepAction where
  | skip
  | send (nspace : Json) (body : Json) (kind : Json) (origName : Json)

/-- One iteration of the loop body up to (but not including) the creation
call: field checks, rewrite, and the two strategy-table lookups, in source
order (rewrite happens before the `api_map` lookup; the `create_methods`
lookup only happens when a client was found, line 273's `continue`). -/
def stepOf (owner : String) (res : Json) : Except String StepAction := do
  match ← checkFields res with
  | none => pure .skip
  | some info =>
    let prefixedName := owner ++ "-" ++ pyStr info.name
    let body ← transformResource owner info.kind prefixedName res
    if ← apiMapGet info.apiVersion then
      if ← createMethodsGet info.kind then
        pure (.send info.nspace body info.kind info.name)
      else
        pure .skip
    else
      pure .skip

/-- How a run of the loop ends early: an `ApiException` converted to an
`HTTPException(500)` (source lines 295-300), or an uncaught Python
exception propagating to the generic handler. -/
inductive LoopFailure where
  | apiFail (detail : String)
  | pyError (msg : String)

/-- Observable state of a loop run: the `created_resources` strings, the
creation calls issued to the cluster (namespace, body) in order, the
resources skipped via `continue` (each is logged in the source), and an
optional early failure. -/
structure LoopOut where
  created : List String
  sent : List (Json × Json)
  skipped : List Json
  failure : Option LoopFailure

def initLoop : LoopOut := ⟨[], [], [], none⟩

/-- The resource loop (source lines 243-300).  `cluster ns body` models the
creation call: `ok name` is a successful response carrying
`response.metadata.name`; `error body` is an `ApiException` with `e.body`. -/
def runLoop (cluster : Json → Json → Except String String) (owner : String) :
    List Json → LoopOut → LoopOut
  | [], st => st
  | res :: rest, st =>
    if st.failure.isSome then st
    else
      match stepOf owner res with
      | .error m => { st with failure := some (.pyError m) }
      | .ok .skip => runLoop cluster owner rest { st with skipped := st.skipped ++ [res] }
      | .ok (.send ns body kind origName) =>
        match cluster ns body with
        | .ok rname =>
          runLoop cluster owner rest
            { st with
              sent := st.sent ++ [(ns, body)],
              created := st.created ++ [pyStr kind ++ "/" ++ rname] }
        | .error ebody =>
          { st with
            sent := st.sent ++ [(ns, body)],
            failure := some (.apiFail
              ("Failed to create " ++ pyStr kind ++ " '" ++ pyStr origName ++ "': " ++ ebody)) }

/-- The uniform payload `handle_lab_action` returns (source lines 350-360):
`result` is `"success"`, `"failed"` (an `HTTPException`) or `"error"` (any
other exception); `details` carries `created_resources` on success. -/
structure Response where
  result : String
  message : String
  statusCode : Option Nat
  details : Option (List String)

/-- `_execute_script` composed with `handle_lab_action`'s exception handling,
for a given parse outcome of the script's standard output (`scriptOutput` is
`error e` when `json.loads` fails or the script exits nonzero, `ok j` when
stdout parses to the JSON value `j`).  Returns the HTTP payload and the loop
observables. -/
def execOutcome (cluster : Json → Json → Except String String) (owner : String)
    (scriptOutput : Except String Json) : Response × LoopOut :=
  match scriptOutput with
  | .error e =>
    (⟨"failed", "Script failed to return valid Kubernetes resource definitions: " ++ e,
      some 500, none⟩, initLoop)
  | .ok (.arr resources) =>
    let out := runLoop cluster owner resources initLoop
    match out.failure with
    | some (.apiFail d) => (⟨"failed", d, some 500, none⟩, out)
    | some (.pyError m) =>
      (⟨"error", "An unexpected error occurred: " ++ m, none, none⟩, out)
    | none =>
      (⟨"success",
        "Successfully created the following resources: " ++ String.intercalate ", " out.created,
        none, some out.created⟩, out)
  | .ok _ =>
    (⟨"failed",
      "Script failed to return valid Kubernetes resource definitions: Script did not return a list of Kubernetes resources.",
      some 500, none⟩, initLoop)

/-! ## pathlib model (`handle_lab_action` path validation, source lines 320-345) -/

/-- A `PurePosixPath`: an absolute flag and the normalized parts list (empty
and `"."` segments are dropped at parse time, `".."` is kept, as in
`pathlib`). -/
structure PyPath where
  absolute : Bool
  parts : List String
deriving DecidableEq

/-- Split a character list on `'/'`. -/
def splitOnSlash : List Char → List (List Char)
  | [] => [[]]
  | c :: rest =>
    if c = '/' then [] :: splitOnSlash rest
    else
      match splitOnSlash rest with
      | [] => [[c]]
      | seg :: segs => (c :: seg) :: segs

/-- `Path(s)` for a POSIX path string. -/
def parsePath (s : String) : PyPath :=
  let segs := (splitOnSlash s.data).map (fun l => String.mk l)
  ⟨(match s.data with | '/' :: _ => true | _ => false),
   segs.filter (fun seg => seg != "" && seg != ".")⟩

/-- `p / q` (`pathlib` join: an absolute right operand discards the left). -/
def PyPath.join (p q : PyPath) : PyPath :=
  if q.absolute then q else ⟨p.absolute, p.parts ++ q.parts⟩

/-- `p / s` for a string segment expression. -/
def PyPath.joinStr (p : PyPath) (s : String) : PyPath :=
  p.join (parsePath s)

/-- `Path(...).name`: the final part, or `""` when there is none (`Path("..")
.name` is `".."` in CPython; `Path(".")`, `Path("")` and `Path("/")` give
`""`). -/
def PyPath.name (p : PyPath) : String :=
  (p.parts.getLast?).getD ""

/-- Lexical `".."` elimination over a reversed-accumulator stack; a `".."` at
the root is dropped (`/.. = /`). -/
def resolveStack : List String → List String → List String
  | acc, [] => acc.reverse
  | acc, seg :: rest =>
    if seg = ".." then resolveStack acc.tail rest
    else resolveStack (seg :: acc) rest

/-- `p.resolve()` for an absolute path in a symlink-free filesystem: lexical
normalization of `".."`. -/
def PyPath.resolveAbs (p : PyPath) : PyPath :=
  ⟨true, resolveStack [] p.parts⟩

/-- `str(p)` for an absolute path. -/
def PyPath.render (p : PyPath) : String :=
  "/" ++ String.intercalate "/" p.parts

/-- Python `a.startswith(b)`. -/
def strStartsWith (s pre : String) : Bool :=
  pre.data.isPrefixOf s.data

/-- Source lines 321-330: build
`repo_local_path / lab_template_path / str(task_id) / Path(action).name /
"main.py"`. -/
def buildScriptPath (repoLocalPath : PyPath) (labTemplatePath : String)
    (taskId : Int) (action : String) : PyPath :=
  let sanitizedLabPath := parsePath labTemplatePath
  let sanitizedAction := (parsePath action).name
  (((repoLocalPath.join sanitizedLabPath).joinStr (toString taskId)).joinStr
      sanitizedAction).joinStr "main.py"

/-- Source lines 333-334: the containment check actually performed,
`str(script_path.resolve()).startswith(str(repo_local_path.resolve()))`. -/
def pathCheckOk (repoLocalPath scriptPath : PyPath) : Bool :=
  strStartsWith (scriptPath.resolveAbs.render) (repoLocalPath.resolveAbs.render)

/-- The property the spec asks for: the resolved script path is a filesystem
descendant of the resolved repository root (component-wise containment, not
string containment).  Stated from the spec's words, for comparison with
`pathCheckOk`. -/
def isPathDescendant (root p : PyPath) : Bool :=
  root.resolveAbs.parts.isPrefixOf p.resolveAbs.parts

/-! ## Repo cache model (`_get_repo_path`, source lines 100-177) -/

/-- Fuel-indexed character-list replacement; the fuel is the list length, so
it never runs out.  Matches Python `str.replace` for a non-empty pattern
(every pattern in the source is a non-empty literal). -/
def replaceCharsAux (pat rep : List Char) : Nat → List Char → List Char
  | 0, l => l
  | _ + 1, [] => []
  | fuel + 1, c :: rest =>
    if !pat.isEmpty && pat.isPrefixOf (c :: rest) then
      rep ++ replaceCharsAux pat rep fuel (rest.drop (pat.length - 1))
    else
      c :: replaceCharsAux pat rep fuel rest

/-- Python `s.replace(pat, rep)` (non-empty `pat`). -/
def pyReplace (s pat rep : String) : String :=
  ⟨replaceCharsAux pat.data rep.data s.data.length s.data⟩

/-- Is `pat` a contiguous infix of `l`? -/
def listIsInfix (pat : List Char) : List Char → Bool
  | [] => pat.isEmpty
  | c :: rest => pat.isPrefixOf (c :: rest) || listIsInfix pat rest

/-- Python `pat in s` (substring test). -/
def containsSubstring (s pat : String) : Bool :=
  listIsInfix pat.data s.data

/-- Source lines 112-119: sanitize the source URL for a redis key and
directory name. -/
def sanitizeSource (source : String) : String :=
  pyReplace (pyReplace (pyReplace (pyReplace (pyReplace (pyReplace
    source "https://" "") "http://" "") "git@" "") ":" "_") "/" "_") "." "_"

/-- Source line 120: the cache index key. -/
def repoKeyOf (source revision : String) : String :=
  "lab_repo:" ++ sanitizeSource source ++ ":" ++ revision

/-- Source line 123: the deterministic clone target under the cache root. -/
def defaultPathOf (cacheDir source revision : String) : String :=
  cacheDir ++ "/" ++ sanitizeSource source ++ "_" ++ revision

/-- Source lines 148-152: inject the GitHub credential into the clone URL for
`github.com` sources when a PAT is configured. -/
def authSourceOf (githubPat : Option String) (source : String) : String :=
  match githubPat with
  | some pat =>
    if containsSubstring source "github.com" then
      pyReplace source "https://" ("https://oauth2:" ++ pat ++ "@")
    else source
  | none => source

/-- The environment a single `_get_repo_path` call runs against: redis
availability and contents, filesystem facts, and the outcomes git would
produce (errors carry the command's stderr). -/
structure GitWorld where
  redisUp : Bool
  redisGet : String → Option String
  pathExists : String → Bool
  pathIsDir : String → Bool
  pullResult : String → Except String Unit
  cloneResult : Except String Unit

/-- The externally visible actions `_get_repo_path` performs, in order. -/
inductive RepoEffect where
  | gitPull (cwd : String)
  | redisDelete (key : String)
  | rmtree (path : String)
  | gitClone (source : String) (revision : String) (dest : String)
  | redisSet (key value : String)
  | redisExpire (key : String) (seconds : Nat)
deriving DecidableEq

/-- Outcome of one `_get_repo_path` call: its effect trace and either the
returned path or an `HTTPException` (status code, detail). -/
structure RepoResult where
  effects : List RepoEffect
  outcome : Except (Nat × String) String

def cloneFailDetail : String :=
  "Failed to clone repository. Check URL and credentials, and ensure the specified branch/revision exists."

def redisDownDetail : String :=
  "Caching service is unavailable. Please check the Redis connection."

/-- Source lines 140-177: the cache-miss / fallthrough tail of
`_get_repo_path` — remove a stale directory, shallow-clone, then write the
index entry with its 24h expiry, or fail with a 500. -/
def cloneSeq (w : GitWorld) (githubPat : Option String) (source revision : String)
    (key repoPath : String) (priorEffects : List RepoEffect) : RepoResult :=
  let rmEff :=
    if w.pathExists repoPath && w.pathIsDir repoPath then [RepoEffect.rmtree repoPath] else []
  let authSource := authSourceOf githubPat source
  match w.cloneResult with
  | .ok _ =>
    ⟨priorEffects ++ rmEff ++
      [.gitClone authSource revision repoPath, .redisSet key repoPath,
       .redisExpire key 86400],
     .ok repoPath⟩
  | .error _ =>
    ⟨priorEffects ++ rmEff ++ [.gitClone authSource revision repoPath],
     .error (500, cloneFailDetail)⟩

/-- `_get_repo_path` (source lines 100-177). -/
def getRepoPath (w : GitWorld) (githubPat : Option String) (cacheDir : String)
    (source revision : String) : RepoResult :=
  if !w.redisUp then ⟨[], .error (503, redisDownDetail)⟩
  else
    let key := repoKeyOf source revision
    let defaultPath := defaultPathOf cacheDir source revision
    match w.redisGet key with
    | some cached =>
      if !cached.isEmpty && w.pathExists cached then
        match w.pullResult cached with
        | .ok _ => ⟨[.gitPull cached], .ok cached⟩
        | .error _ =>
          cloneSeq w githubPat source revision key cached
            [.gitPull cached, .redisDelete key]
      else
        cloneSeq w githubPat source revision key defaultPath []
    | none => cloneSeq w githubPat source revision key defaultPath []

/-! ## Structural lemmas about the resource loop -/

theorem runLoop_failed {cluster owner l st} (h : st.failure.isSome = true) :
    runLoop cluster owner l st = st := by
  cases l with
  | nil => rfl
  | cons r rest => simp [runLoop, h]

theorem runLoop_cons_err {cluster owner r l st m}
    (h : st.failure = none) (hs : stepOf owner r = .error m) :
    runLoop cluster owner (r :: l) st = { st with failure := some (.pyError m) } := by
  simp [runLoop, h, hs]

theorem runLoop_cons_skip {cluster owner r l st}
    (h : st.failure = none) (hs : stepOf owner r = .ok .skip) :
    runLoop cluster owner (r :: l) st =
      runLoop cluster owner l { st with skipped := st.skipped ++ [r] } := by
  simp [runLoop, h, hs]

theorem runLoop_cons_created {cluster owner r l st ns body kind origName rname}
    (h : st.failure = none) (hs : stepOf owner r = .ok (.send ns body kind origName))
    (hc : cluster ns body = .ok rname) :
    runLoop cluster owner (r :: l) st =
      runLoop cluster owner l
        { st with
          sent := st.sent ++ [(ns, body)],
          created := st.created ++ [pyStr kind ++ "/" ++ rname] } := by
  simp [runLoop, h, hs, hc]

theorem runLoop_cons_apiFail {cluster owner r l st ns body kind origName ebody}
    (h : st.failure = none) (hs : stepOf owner r = .ok (.send ns body kind origName))
    (hc : cluster ns body = .error ebody) :
    runLoop cluster owner (r :: l) st =
      { st with
        sent := st.sent ++ [(ns, body)],
        failure := some (.apiFail
          ("Failed to create " ++ pyStr kind ++ " '" ++ pyStr origName ++ "': " ++ ebody)) } := by
  simp [runLoop, h, hs, hc]

theorem runLoop_append {cluster owner} :
    ∀ (l1 l2 : List Json) (st : LoopOut),
      runLoop cluster owner (l1 ++ l2) st =
        runLoop cluster owner l2 (runLoop cluster owner l1 st) := by
  intro l1
  induction l1 with
  | nil => intro l2 st; rfl
  | cons r rest ih =>
    intro l2 st
    show runLoop cluster owner (r :: (rest ++ l2)) st
        = runLoop cluster owner l2 (runLoop cluster owner (r :: rest) st)
    cases hf : st.failure with
    | some f =>
      have h : st.failure.isSome = true := by rw [hf]; rfl
      rw [runLoop_failed h, runLoop_failed h, runLoop_failed h]
    | none =>
      cases hstep : stepOf owner r with
      | error m =>
        rw [runLoop_cons_err hf hstep, runLoop_cons_err hf hstep, runLoop_failed (by rfl)]
      | ok act =>
        cases act with
        | skip => rw [runLoop_cons_skip hf hstep, runLoop_cons_skip hf hstep, ih]
        | send ns body kind origName =>
          cases hc : cluster ns body with
          | ok rname =>
            rw [runLoop_cons_created hf hstep hc, runLoop_cons_created hf hstep hc, ih]
          | error ebody =>
            rw [runLoop_cons_apiFail hf hstep hc, runLoop_cons_apiFail hf hstep hc,
              runLoop_failed (by rfl)]

theorem runLoop_skipped_param {cluster owner} :
    ∀ (l : List Json) (cr : List String) (se : List (Json × Json))
      (f : Option LoopFailure) (sk sk' : List Json),
      (runLoop cluster owner l ⟨cr, se, sk, f⟩).created
          = (runLoop cluster owner l ⟨cr, se, sk', f⟩).created ∧
      (runLoop cluster owner l ⟨cr, se, sk, f⟩).sent
          = (runLoop cluster owner l ⟨cr, se, sk', f⟩).sent ∧
      (runLoop cluster owner l ⟨cr, se, sk, f⟩).failure
          = (runLoop cluster owner l ⟨cr, se, sk', f⟩).failure ∧
      ∃ δ, (runLoop cluster owner l ⟨cr, se, sk, f⟩).skipped = sk ++ δ ∧
           (runLoop cluster owner l ⟨cr, se, sk', f⟩).skipped = sk' ++ δ := by
  intro l
  induction l with
  | nil =>
    intro cr se f sk sk'
    exact ⟨rfl, rfl, rfl, [], by simp [runLoop], by simp [runLoop]⟩
  | cons r rest ih =>
    intro cr se f sk sk'
    cases f with
    | some fl =>
      rw [runLoop_failed (by rfl), runLoop_failed (by rfl)]
      exact ⟨rfl, rfl, rfl, [], by simp, by simp⟩
    | none =>
      cases hstep : stepOf owner r with
      | error m =>
        rw [runLoop_cons_err rfl hstep, runLoop_cons_err rfl hstep]
        exact ⟨rfl, rfl, rfl, [], by simp, by simp⟩
      | ok act =>
        cases act with
        | skip =>
          rw [runLoop_cons_skip rfl hstep, runLoop_cons_skip rfl hstep]
          obtain ⟨hc, hs, hf, δ, h1, h2⟩ := ih cr se none (sk ++ [r]) (sk' ++ [r])
          exact ⟨hc, hs, hf, [r] ++ δ, by simpa using h1, by simpa using h2⟩
        | send ns body kind origName =>
          cases hcl : cluster ns body with
          | ok rname =>
            rw [runLoop_cons_created rfl hstep hcl, runLoop_cons_created rfl hstep hcl]
            exact ih _ _ none sk sk'
          | error ebody =>
            rw [runLoop_cons_apiFail rfl hstep hcl, runLoop_cons_apiFail rfl hstep hcl]
            exact ⟨rfl, rfl, rfl, [], by simp, by simp⟩

theorem runLoop_insert_skip {cluster owner r} (hs : stepOf owner r = .ok .skip)
    (l1 l2 : List Json) (hf : (runLoop cluster owner l1 initLoop).failure = none) :
    (runLoop cluster owner (l1 ++ r :: l2) initLoop).created
        = (runLoop cluster owner (l1 ++ l2) initLoop).created ∧
    (runLoop cluster owner (l1 ++ r :: l2) initLoop).sent
        = (runLoop cluster owner (l1 ++ l2) initLoop).sent ∧
    (runLoop cluster owner (l1 ++ r :: l2) initLoop).failure
        = (runLoop cluster owner (l1 ++ l2) initLoop).failure ∧
    r ∈ (runLoop cluster owner (l1 ++ r :: l2) initLoop).skipped := by
  have hst1 : runLoop cluster owner l1 initLoop
      = ⟨(runLoop cluster owner l1 initLoop).created,
         (runLoop cluster owner l1 initLoop).sent,
         (runLoop cluster owner l1 initLoop).skipped, none⟩ := by
    rw [← hf]
  rw [runLoop_append l1 (r :: l2), runLoop_append l1 l2, hst1,
    runLoop_cons_skip rfl hs]
  obtain ⟨hc, hse, hfq, δ, h1, h2⟩ :=
    runLoop_skipped_param l2 (runLoop cluster owner l1 initLoop).created
      (runLoop cluster owner l1 initLoop).sent none
      ((runLoop cluster owner l1 initLoop).skipped ++ [r])
      (runLoop cluster owner l1 initLoop).skipped
  refine ⟨hc, hse, hfq, ?_⟩
  rw [h1]
  simp

theorem execOutcome_resp_congr {cluster owner} {L1 L2 : List Json}
    (hc : (runLoop cluster owner L1 initLoop).created
        = (runLoop cluster owner L2 initLoop).created)
    (hf : (runLoop cluster owner L1 initLoop).failure
        = (runLoop cluster owner L2 initLoop).failure) :
    (execOutcome cluster owner (.ok (.arr L1))).1
        = (execOutcome cluster owner (.ok (.arr L2))).1 := by
  simp only [execOutcome]
  rw [hf, hc]
  cases hl : (runLoop cluster owner L2 initLoop).failure with
  | some fl => cases fl <;> rfl
  | none => rfl

theorem apiMapGet_hashable {j : Json} (h : hashableKey j = true) :
    apiMapGet j = .ok (registeredApi j) := by
  cases j <;> first | rfl | simp [hashableKey] at h

theorem createMethodsGet_hashable {j : Json} (h : hashableKey j = true) :
    createMethodsGet j = .ok (registeredKind j) := by
  cases j <;> first | rfl | simp [hashableKey] at h

theorem registeredApi_hashable {j : Json} (h : registeredApi j = true) :
    hashableKey j = true := by
  cases j <;> first | rfl | simp [registeredApi, isStrEq] at h

theorem stepOf_skip_of_unregistered {owner : String} {r : Json} {info : FieldInfo} {body : Json}
    (hcf : checkFields r = .ok (some info))
    (htr : transformResource owner info.kind (owner ++ "-" ++ pyStr info.name) r = .ok body)
    (hreg : (hashableKey info.apiVersion = true ∧ registeredApi info.apiVersion = false) ∨
      (registeredApi info.apiVersion = true ∧ hashableKey info.kind = true ∧
        registeredKind info.kind = false)) :
    stepOf owner r = .ok .skip := by
  rcases hreg with ⟨hH, hA⟩ | ⟨hA, hHk, hK⟩
  · simp [stepOf, hcf, htr, Bind.bind, Except.bind, apiMapGet_hashable hH, hA]; rfl
  · simp [stepOf, hcf, htr, Bind.bind, Except.bind,
      apiMapGet_hashable (registeredApi_hashable hA), hA,
      createMethodsGet_hashable hHk, hK]; rfl

/-! ## Lemmas about object updates -/

theorem jlookup_jinsert_self (fs : List (String × Json)) (k : String) (v : Json) :
    jlookup (jinsert fs k v) k = some v := by
  induction fs with
  | nil => simp [jinsert, jlookup]
  | cons p rest ih =>
    obtain ⟨k', v'⟩ := p
    by_cases h : k' = k
    · simp [jinsert, h, jlookup]
    · simp [jinsert, h, jlookup, ih]

theorem jlookup_jinsert_ne (fs : List (String × Json)) {k k' : String} (v : Json)
    (h : k' ≠ k) : jlookup (jinsert fs k v) k' = jlookup fs k' := by
  have h' : k ≠ k' := Ne.symm h
  induction fs with
  | nil => simp [jinsert, jlookup, h']
  | cons p rest ih =>
    obtain ⟨k'', v''⟩ := p
    by_cases h2 : k'' = k
    · subst h2
      simp [jinsert, jlookup, h']
    · by_cases h3 : k'' = k'
      · simp [jinsert, h2, jlookup, h3, h]
      · simp [jinsert, h2, jlookup, h3, ih]

theorem pySetItem_ok {j j' : Json} {k : String} {v : Json}
    (h : pySetItem j k v = .ok j') :
    ∃ fs, j = .obj fs ∧ j' = .obj (jinsert fs k v) := by
  cases j <;> simp [pySetItem] at h
  exact ⟨_, rfl, h.symm⟩

theorem pyGetItem_ok {j c : Json} {p : String} (h : pyGetItem j p = .ok c) :
    ∃ fs, j = .obj fs ∧ jlookup fs p = some c := by
  cases j <;> simp [pyGetItem] at h
  case obj fs =>
    cases hl : jlookup fs p with
    | none => rw [hl] at h; simp at h
    | some w => rw [hl] at h; simp at h; exact ⟨fs, rfl, by rw [hl, h]⟩

theorem pySetPath_cons_ok {j j' : Json} {p : String} {ps : List String} {k : String} {v : Json}
    (h : pySetPath j (p :: ps) k v = .ok j') :
    ∃ fs child child', j = .obj fs ∧ jlookup fs p = some child ∧
      pySetPath child ps k v = .ok child' ∧ j' = .obj (jinsert fs p child') := by
  simp only [pySetPath, Bind.bind, Except.bind] at h
  cases hg : pyGetItem j p with
  | error e => rw [hg] at h; simp at h
  | ok child =>
    simp only [hg] at h
    cases hs : pySetPath child ps k v with
    | error e => rw [hs] at h; simp at h
    | ok child' =>
      simp only [hs] at h
      obtain ⟨fs, hj, hj'⟩ := pySetItem_ok h
      obtain ⟨fs2, hj2, hl⟩ := pyGetItem_ok hg
      rw [hj] at hj2
      cases hj2
      exact ⟨fs, child, child', hj, hl, hs, hj'⟩

theorem getPath_pySetPath_self :
    ∀ (ps : List String) (k : String) (v j j' : Json),
      pySetPath j ps k v = .ok j' → j'.getPath (ps ++ [k]) = some v := by
  intro ps
  induction ps with
  | nil =>
    intro k v j j' h
    obtain ⟨fs, hj, hj'⟩ := pySetItem_ok h
    subst hj'
    simp [Json.getPath, jlookup_jinsert_self]
  | cons p ps ih =>
    intro k v j j' h
    obtain ⟨fs, child, child', hj, hl, hs, hj'⟩ := pySetPath_cons_ok h
    subst hj'
    simp [Json.getPath, jlookup_jinsert_self, ih _ _ _ _ hs]

/-- Divergence of one object path from another: the two paths agree on a
(possibly empty) common first segment and then differ at a key. -/
inductive PathDiverge : List String → List String → Prop
  | head {q t : String} {qs ts : List String} : q ≠ t → PathDiverge (q :: qs) (t :: ts)
  | cons {q : String} {qs ts : List String} : PathDiverge qs ts → PathDiverge (q :: qs) (q :: ts)

theorem getPath_pySetPath_diverge :
    ∀ (ps : List String) (k : String) (v j j' : Json) (qs : List String),
      pySetPath j ps k v = .ok j' → PathDiverge qs (ps ++ [k]) →
      j'.getPath qs = j.getPath qs := by
  intro ps
  induction ps with
  | nil =>
    intro k v j j' qs h hd
    obtain ⟨fs, hj, hj'⟩ := pySetItem_ok h
    subst hj; subst hj'
    cases hd with
    | head hne => simp [Json.getPath, jlookup_jinsert_ne _ _ hne]
    | cons hd' => cases hd'
  | cons p ps ih =>
    intro k v j j' qs h hd
    obtain ⟨fs, child, child', hj, hl, hs, hj'⟩ := pySetPath_cons_ok h
    subst hj; subst hj'
    cases hd with
    | head hne => simp [Json.getPath, jlookup_jinsert_ne _ _ hne]
    | cons hd' =>
      simp [Json.getPath, jlookup_jinsert_self, hl, ih _ _ _ _ _ hs hd']

theorem transform_name {owner : String} {kind : Json} {pfx : String} {res body : Json}
    (h : transformResource owner kind pfx res = .ok body) :
    body.getPath ["metadata", "name"] = some (.str pfx) := by
  have dLabels : PathDiverge ["metadata", "name"] ["metadata", "labels"] :=
    .cons (.head (by decide))
  have dLabOwner : PathDiverge ["metadata", "name"] ["metadata", "labels", "lab-owner"] :=
    .cons (.head (by decide))
  have dSpec3 : PathDiverge ["metadata", "name"] ["spec", "selector", "matchLabels", "app"] :=
    .head (by decide)
  have dSpec4 : PathDiverge ["metadata", "name"] ["spec", "template", "metadata", "labels", "app"] :=
    .head (by decide)
  have dSpec2 : PathDiverge ["metadata", "name"] ["spec", "selector", "app"] :=
    .head (by decide)
  simp only [transformResource, Bind.bind, Except.bind] at h
  cases h1 : pySetPath res ["metadata"] "name" (.str pfx) with
  | error e => rw [h1] at h; simp at h
  | ok res1 =>
    simp only [h1] at h
    have g1 : res1.getPath ["metadata", "name"] = some (.str pfx) :=
      getPath_pySetPath_self ["metadata"] "name" _ _ _ h1
    cases h2 : pyGetItem res1 "metadata" with
    | error e => rw [h2] at h; simp at h
    | ok meta1 =>
      simp only [h2] at h
      cases h3 : pyContains meta1 "labels" with
      | error e => rw [h3] at h; simp at h
      | ok hasL =>
        simp only [h3] at h
        have step2 : ∀ res2 : Json,
            res2.getPath ["metadata", "name"] = some (.str pfx) →
            (do
              let res3 ← pySetPath res2 ["metadata", "labels"] "lab-owner" (.str owner)
              if isStrEq kind "Deployment" = true then do
                let res4 ← pySetPath res3 ["spec", "selector", "matchLabels"] "app" (.str pfx)
                pySetPath res4 ["spec", "template", "metadata", "labels"] "app" (.str pfx)
              else if isStrEq kind "Service" = true then
                pySetPath res3 ["spec", "selector"] "app" (.str pfx)
              else
                pure res3) = .ok body →
            body.getPath ["metadata", "name"] = some (.str pfx) := by
          intro res2 g2 hrest
          simp only [Bind.bind, Except.bind] at hrest
          cases h5 : pySetPath res2 ["metadata", "labels"] "lab-owner" (.str owner) with
          | error e => rw [h5] at hrest; simp at hrest
          | ok res3 =>
            simp only [h5] at hrest
            have g3 : res3.getPath ["metadata", "name"] = some (.str pfx) := by
              rw [getPath_pySetPath_diverge _ _ _ _ _ _ h5 dLabOwner]; exact g2
            by_cases hD : isStrEq kind "Deployment" = true
            · simp only [hD, if_true] at hrest
              cases h6 : pySetPath res3 ["spec", "selector", "matchLabels"] "app" (.str pfx) with
              | error e => rw [h6] at hrest; simp at hrest
              | ok res4 =>
                simp only [h6] at hrest
                have g4 : res4.getPath ["metadata", "name"] = some (.str pfx) := by
                  rw [getPath_pySetPath_diverge _ _ _ _ _ _ h6 dSpec3]; exact g3
                rw [getPath_pySetPath_diverge _ _ _ _ _ _ hrest dSpec4]
                exact g4
            · simp only [hD, if_false] at hrest
              by_cases hS : isStrEq kind "Service" = true
              · simp only [hS, if_true] at hrest
                rw [getPath_pySetPath_diverge _ _ _ _ _ _ hrest dSpec2]
                exact g3
              · simp only [hS, if_false] at hrest
                cases hrest
                exact g3
        cases hasL with
        | true =>
          rw [if_pos rfl] at h
          exact step2 res1 g1 h
        | false =>
          rw [if_neg (by simp)] at h
          cases h4 : pySetPath res1 ["metadata"] "labels" (.obj []) with
          | error e => rw [h4] at h; simp at h
          | ok res2 =>
            simp only [h4] at h
            have g2 : res2.getPath ["metadata", "name"] = some (.str pfx) := by
              rw [getPath_pySetPath_diverge _ _ _ _ _ _ h4 dLabels]; exact g1
            exact step2 res2 g2 h

theorem checkFields_some_name {r : Json} {info : FieldInfo}
    (h : checkFields r = .ok (some info)) :
    r.getPath ["metadata", "name"] = some info.name := by
  cases r with
  | obj fs =>
    simp only [checkFields, pyGet, Bind.bind, Except.bind] at h
    cases hm : jlookup fs "metadata" with
    | none =>
      rw [hm] at h
      simp [truthy, Option.getD, jlookup, pure, Except.pure] at h
    | some m =>
      rw [hm] at h
      cases m with
      | obj mfs =>
        simp only [Option.getD] at h
        cases hn : jlookup mfs "name" with
        | none =>
          rw [hn] at h
          simp [truthy, Option.getD, pure, Except.pure] at h
        | some nv =>
          rw [hn] at h
          split at h
          · simp only [pure, Except.pure, Except.ok.injEq, Option.some.injEq] at h
            subst h
            simp [Json.getPath, hm, hn, Option.getD]
          · simp [pure, Except.pure] at h
      | null => simp [pyGet] at h
      | bool b => simp [pyGet] at h
      | num n => simp [pyGet] at h
      | str s => simp [pyGet] at h
      | arr xs => simp [pyGet] at h
  | null => simp [checkFields, pyGet, Bind.bind, Except.bind] at h
  | bool b => simp [checkFields, pyGet, Bind.bind, Except.bind] at h
  | num n => simp [checkFields, pyGet, Bind.bind, Except.bind] at h
  | str s => simp [checkFields, pyGet, Bind.bind, Except.bind] at h
  | arr xs => simp [checkFields, pyGet, Bind.bind, Except.bind] at h

theorem stepOf_send_inv {owner : String} {r ns body kind n : Json}
    (h : stepOf owner r = .ok (.send ns body kind n)) :
    ∃ info : FieldInfo, checkFields r = .ok (some info) ∧
      transformResource owner info.kind (owner ++ "-" ++ pyStr info.name) r = .ok body ∧
      ns = info.nspace ∧ kind = info.kind ∧ n = info.name := by
  simp only [stepOf, Bind.bind, Except.bind] at h
  split at h
  · simp at h
  · rename_i v heq
    split at h
    · simp [pure, Except.pure] at h
    · rename_i info
      split at h
      · simp at h
      · rename_i b htr
        split at h
        · simp at h
        · split at h
          · split at h
            · simp at h
            · split at h
              · simp only [pure, Except.pure, Except.ok.injEq, StepAction.send.injEq] at h
                obtain ⟨hns, hb, hkind, hn⟩ := h
                subst hb
                exact ⟨info, heq, htr, hns.symm, hkind.symm, hn.symm⟩
              · simp [pure, Except.pure] at h
          · simp [pure, Except.pure] at h

theorem stepOf_send_facts {owner : String} {r ns body kind n : Json}
    (h : stepOf owner r = .ok (.send ns body kind n)) :
    r.getPath ["metadata", "name"] = some n ∧
    body.getPath ["metadata", "name"] = some (.str (owner ++ "-" ++ pyStr n)) := by
  obtain ⟨info, hcf, htr, _, _, hn⟩ := stepOf_send_inv h
  subst hn
  exact ⟨checkFields_some_name hcf, transform_name htr⟩

theorem runLoop_sent_origin {cluster : Json → Json → Except String String} {owner : String} :
    ∀ (l : List Json) (st : LoopOut) (p : Json × Json),
      p ∈ (runLoop cluster owner l st).sent →
      p ∈ st.sent ∨ ∃ r, r ∈ l ∧ ∃ kind n, stepOf owner r = .ok (.send p.1 p.2 kind n) := by
  intro l
  induction l with
  | nil => intro st p hp; exact .inl hp
  | cons r rest ih =>
    intro st p hp
    cases hf : st.failure with
    | some fl =>
      rw [runLoop_failed (by rw [hf]; rfl)] at hp
      exact .inl hp
    | none =>
      cases hstep : stepOf owner r with
      | error m =>
        rw [runLoop_cons_err hf hstep] at hp
        exact .inl hp
      | ok act =>
        cases act with
        | skip =>
          rw [runLoop_cons_skip hf hstep] at hp
          rcases ih _ p hp with h1 | ⟨r', hr', hsend⟩
          · exact .inl h1
          · exact .inr ⟨r', List.mem_cons_of_mem _ hr', hsend⟩
        | send ns body kind origName =>
          cases hc : cluster ns body with
          | ok rname =>
            rw [runLoop_cons_created hf hstep hc] at hp
            rcases ih _ p hp with h1 | ⟨r', hr', hsend⟩
            · rcases List.mem_append.mp h1 with h2 | h2
              · exact .inl h2
              · have hpeq : p = (ns, body) := by simpa using h2
                subst hpeq
                exact .inr ⟨r, List.mem_cons_self _ _, kind, origName, hstep⟩
            · exact .inr ⟨r', List.mem_cons_of_mem _ hr', hsend⟩
          | error ebody =>
            rw [runLoop_cons_apiFail hf hstep hc] at hp
            rcases List.mem_append.mp hp with h2 | h2
            · exact .inl h2
            · have hpeq : p = (ns, body) := by simpa using h2
              subst hpeq
              exact .inr ⟨r, List.mem_cons_self _ _, kind, origName, hstep⟩

theorem isPrefixOf_self_append (p s : List Char) : p.isPrefixOf (p ++ s) = true := by
  induction p with
  | nil => simp [List.isPrefixOf]
  | cons c rest ih => simp [List.isPrefixOf, ih]

theorem strStartsWith_self_append (p s : String) : strStartsWith (p ++ s) p = true := by
  simp [strStartsWith, String.data_append, isPrefixOf_self_append]

theorem dashfree_append_inj :
    ∀ (l1 l2 m1 m2 : List Char), '-' ∉ l1 → '-' ∉ l2 →
      l1 ++ '-' :: m1 = l2 ++ '-' :: m2 → l1 = l2 := by
  intro l1
  induction l1 with
  | nil =>
    intro l2 m1 m2 _ h2 he
    cases l2 with
    | nil => rfl
    | cons c l2' =>
      simp only [List.nil_append, List.cons_append, List.cons.injEq] at he
      exact absurd (he.1 ▸ List.mem_cons_self _ _) h2
  | cons c l1' ih =>
    intro l2 m1 m2 h1 h2 he
    cases l2 with
    | nil =>
      simp only [List.nil_append, List.cons_append, List.cons.injEq] at he
      exact absurd (he.1 ▸ List.mem_cons_self _ _) h1
    | cons d l2' =>
      simp only [List.cons_append, List.cons.injEq] at he
      obtain ⟨hcd, htl⟩ := he
      subst hcd
      rw [ih l2' m1 m2 (fun hm => h1 (List.mem_cons_of_mem _ hm))
        (fun hm => h2 (List.mem_cons_of_mem _ hm)) htl]

theorem owner_dash_distinct (o1 o2 n1 n2 : String)
    (h1 : '-' ∉ o1.data) (h2 : '-' ∉ o2.data) (hne : o1 ≠ o2) :
    o1 ++ "-" ++ n1 ≠ o2 ++ "-" ++ n2 := by
  intro he
  apply hne
  apply String.ext
  have hd := congrArg String.data he
  simp only [String.data_append] at hd
  simp only [List.append_assoc, List.singleton_append] at hd
  exact dashfree_append_inj _ _ _ _ h1 h2 hd


/-! ## Concrete fixtures used by the individual claims -/

/-- A cluster that accepts every creation call and echoes the submitted
`metadata.name` back as `response.metadata.name`. -/
def echoCluster : Json → Json → Except String String :=
  fun _ body =>
    match body.getPath ["metadata", "name"] with
    | some (.str s) => .ok s
    | _ => .error "missing name"

/-- The Deployment from the spec's orchestrator example. -/
def nginxResource : Json :=
  .obj [("kind", .str "Deployment"), ("apiVersion", .str "apps/v1"),
        ("metadata", .obj [("name", .str "nginx"), ("namespace", .str "default")]),
        ("spec", .obj
          [("selector", .obj [("matchLabels", .obj [("app", .str "nginx")])]),
           ("template", .obj [("metadata", .obj [("labels", .obj [("app", .str "nginx")])])])])]

/-- A minimal well-formed Service resource named `n`. -/
def svcResource (n : String) : Json :=
  .obj [("kind", .str "Service"), ("apiVersion", .str "core/v1"),
        ("metadata", .obj [("name", .str n)]),
        ("spec", .obj [("selector", .obj [("app", .str n)])])]

/-- The body the orchestrator submits for `svcResource n` under owner
`"alice"`. -/
def svcBodyAlice (n : String) : Json :=
  .obj [("kind", .str "Service"), ("apiVersion", .str "core/v1"),
        ("metadata", .obj [("name", .str ("alice-" ++ n)),
                           ("labels", .obj [("lab-owner", .str "alice")])]),
        ("spec", .obj [("selector", .obj [("app", .str ("alice-" ++ n))])])]

/-- A cluster that rejects the creation call for `alice-app2` with an
`ApiException` and accepts everything else. -/
def failOnApp2Cluster : Json → Json → Except String String :=
  fun _ body =>
    match body.getPath ["metadata", "name"] with
    | some (.str "alice-app2") => .error "409 AlreadyExists"
    | some (.str s) => .ok s
    | _ => .error "missing name"

/-- The list of resources fed to the orchestrator in the C3 scenario. -/
def c3Input : List Json := [svcResource "app1", svcResource "app2", svcResource "app3"]

/-! ## Claims -/

/-- Claim C1 (confirmed): for the spec's single-Deployment script output with
owner `"alice"`, the orchestrator issues exactly one creation call, in
namespace `"default"`, for a Deployment whose `metadata.name`,
`spec.selector.matchLabels.app` and `spec.template.metadata.labels.app` all
equal `"alice-nginx"` and whose labels carry `lab-owner = "alice"`; the
request succeeds. -/
theorem c1_deployment_rewrite :
    (execOutcome echoCluster "alice" (.ok (.arr [nginxResource]))).1.result = "success" ∧
    ((execOutcome echoCluster "alice" (.ok (.arr [nginxResource]))).2.sent.map Prod.fst)
      = [Json.str "default"] ∧
    ((execOutcome echoCluster "alice" (.ok (.arr [nginxResource]))).2.sent.map
      (fun p => p.2.getPath ["kind"])) = [some (.str "Deployment")] ∧
    ((execOutcome echoCluster "alice" (.ok (.arr [nginxResource]))).2.sent.map
      (fun p => p.2.getPath ["metadata", "name"])) = [some (.str "alice-nginx")] ∧
    ((execOutcome echoCluster "alice" (.ok (.arr [nginxResource]))).2.sent.map
      (fun p => p.2.getPath ["spec", "selector", "matchLabels", "app"]))
      = [some (.str "alice-nginx")] ∧
    ((execOutcome echoCluster "alice" (.ok (.arr [nginxResource]))).2.sent.map
      (fun p => p.2.getPath ["spec", "template", "metadata", "labels", "app"]))
      = [some (.str "alice-nginx")] ∧
    ((execOutcome echoCluster "alice" (.ok (.arr [nginxResource]))).2.sent.map
      (fun p => p.2.getPath ["metadata", "labels", "lab-owner"]))
      = [some (.str "alice")] ∧
    (execOutcome echoCluster "alice" (.ok (.arr [nginxResource]))).1.details
      = some ["Deployment/alice-nginx"] :=
  ⟨rfl, rfl, rfl, rfl, rfl, rfl, rfl, rfl⟩

/-- The resolved repository root used in the C2 scenario. -/
def sampleRepoRoot : PyPath := parsePath "/data/lab_repo_cache/github_com_a_b_main"

/-- Claim C2 (code bug): the containment check `handle_lab_action` performs is
a string `startswith` on the rendered resolved paths, so a request whose
`lab_template_path` climbs to a sibling directory whose name extends the repo
root's name (here `github_com_a_b_mainx`) passes the check even though the
resolved script path is not a filesystem descendant of the repository root. -/
theorem c2_path_check_accepts_non_descendant :
    pathCheckOk sampleRepoRoot
      (buildScriptPath sampleRepoRoot "../github_com_a_b_mainx" 1 "init") = true ∧
    isPathDescendant sampleRepoRoot
      (buildScriptPath sampleRepoRoot "../github_com_a_b_mainx" 1 "init") = false ∧
    (buildScriptPath sampleRepoRoot "../github_com_a_b_mainx" 1 "init").resolveAbs.render
      = "/data/lab_repo_cache/github_com_a_b_mainx/1/init/main.py" :=
  ⟨rfl, rfl, rfl⟩

/-- Claim C3, counterexample: when the second of three Services fails, the
first Service was created (it is in `created` and was sent), yet the outcome
returned for the request is a bare failure payload whose `details` field is
`none` — the resources created before the failure are not recorded in the
returned outcome. -/
theorem c3_failed_outcome_omits_created_list :
    (execOutcome failOnApp2Cluster "alice" (.ok (.arr c3Input))).1.result = "failed" ∧
    (execOutcome failOnApp2Cluster "alice" (.ok (.arr c3Input))).1.details = none ∧
    (execOutcome failOnApp2Cluster "alice" (.ok (.arr c3Input))).2.created
      = ["Service/alice-app1"] ∧
    (execOutcome failOnApp2Cluster "alice" (.ok (.arr c3Input))).2.sent.length = 2 :=
  ⟨rfl, rfl, rfl, rfl⟩

/-- Claim C3 (corrected): a creation failure aborts every subsequent resource
(the calls sent to the cluster are exactly those of the prefix plus the
failing one), the resources created before the failure are retained in the
loop's internal `created` list (no rollback action exists in the model), the
request fails with the `Failed to create` detail — but the returned outcome
carries no `details`, so the earlier creations are not reported back. -/
theorem c3_abort_after_failure
    (cluster : Json → Json → Except String String) (owner : String)
    (l1 l2 : List Json) (r ns body kind n : Json) (e : String)
    (hpre : (runLoop cluster owner l1 initLoop).failure = none)
    (hstep : stepOf owner r = .ok (.send ns body kind n))
    (hfail : cluster ns body = .error e) :
    (runLoop cluster owner (l1 ++ r :: l2) initLoop).sent
      = (runLoop cluster owner l1 initLoop).sent ++ [(ns, body)] ∧
    (runLoop cluster owner (l1 ++ r :: l2) initLoop).created
      = (runLoop cluster owner l1 initLoop).created ∧
    (execOutcome cluster owner (.ok (.arr (l1 ++ r :: l2)))).1
      = ⟨"failed", "Failed to create " ++ pyStr kind ++ " '" ++ pyStr n ++ "': " ++ e,
         some 500, none⟩ := by
  have key : runLoop cluster owner (l1 ++ r :: l2) initLoop
      = { runLoop cluster owner l1 initLoop with
          sent := (runLoop cluster owner l1 initLoop).sent ++ [(ns, body)],
          failure := some (.apiFail
            ("Failed to create " ++ pyStr kind ++ " '" ++ pyStr n ++ "': " ++ e)) } := by
    rw [runLoop_append]
    exact runLoop_cons_apiFail hpre hstep hfail
  refine ⟨by rw [key], by rw [key], ?_⟩
  simp only [execOutcome, key]

/-- Witness for C3: the corrected statement at the concrete three-Service
scenario. -/
theorem c3_abort_after_failure_witness :
    (runLoop failOnApp2Cluster "alice"
        ([svcResource "app1"] ++ svcResource "app2" :: [svcResource "app3"]) initLoop).sent
      = (runLoop failOnApp2Cluster "alice" [svcResource "app1"] initLoop).sent
          ++ [(Json.str "default", svcBodyAlice "app2")] ∧
    (runLoop failOnApp2Cluster "alice"
        ([svcResource "app1"] ++ svcResource "app2" :: [svcResource "app3"]) initLoop).created
      = (runLoop failOnApp2Cluster "alice" [svcResource "app1"] initLoop).created ∧
    (execOutcome failOnApp2Cluster "alice"
        (.ok (.arr ([svcResource "app1"] ++ svcResource "app2" :: [svcResource "app3"])))).1
      = ⟨"failed",
         "Failed to create " ++ pyStr (.str "Service") ++ " '" ++ pyStr (.str "app2")
           ++ "': " ++ "409 AlreadyExists", some 500, none⟩ :=
  c3_abort_after_failure failOnApp2Cluster "alice" [svcResource "app1"] [svcResource "app3"]
    (svcResource "app2") (Json.str "default") (svcBodyAlice "app2")
    (Json.str "Service") (Json.str "app2") "409 AlreadyExists" rfl rfl rfl

/-- A Deployment with an unregistered apiVersion and no `spec`: the rewrite
step (`resource["spec"]["selector"]...`) raises before the strategy lookup is
reached. -/
def unregisteredDeployment : Json :=
  .obj [("kind", .str "Deployment"), ("apiVersion", .str "v2"),
        ("metadata", .obj [("name", .str "x")])]

/-- A resource with an unregistered (apiVersion, kind) pair whose rewrite
succeeds. -/
def podResource : Json :=
  .obj [("kind", .str "Pod"), ("apiVersion", .str "v1"),
        ("metadata", .obj [("name", .str "p")])]

/-- The body produced for `podResource` under owner `"alice"`. -/
def podBodyAlice : Json :=
  .obj [("kind", .str "Pod"), ("apiVersion", .str "v1"),
        ("metadata", .obj [("name", .str "alice-p"),
                           ("labels", .obj [("lab-owner", .str "alice")])])]

/-- Claim C4, counterexample: a Deployment with the unregistered apiVersion
`"v2"` and no `spec` makes the request terminate with result `"error"` — it
is not recorded as skipped and the batch does not continue — because the
kind-specific rewrite runs before the strategy lookup and raises `KeyError`.
-/
theorem c4_unregistered_pair_errors :
    (execOutcome echoCluster "alice" (.ok (.arr [unregisteredDeployment]))).1.result
      = "error" ∧
    (execOutcome echoCluster "alice" (.ok (.arr [unregisteredDeployment]))).2.skipped = [] ∧
    (execOutcome echoCluster "alice" (.ok (.arr [unregisteredDeployment]))).2.sent = [] :=
  ⟨rfl, rfl, rfl⟩

/-- A resource whose truthy `apiVersion` is a JSON array: `api_map.get`
raises `TypeError: unhashable type: 'list'`. -/
def unhashableApiResource : Json :=
  .obj [("kind", .str "Pod"), ("apiVersion", .arr [.num 1]),
        ("metadata", .obj [("name", .str "p")])]

/-- Claim C4 (corrected): for a resource that passes the field check, whose
rewrite step succeeds, and whose looked-up keys are hashable — either a
hashable unregistered apiVersion, or a registered apiVersion with a hashable
unregistered kind — the resource is skipped (logged) and the batch
continues: removing it from the array changes neither the creation calls,
the created list, the failure, nor the returned payload, so the request
still succeeds when every other resource is created successfully.  A truthy
unhashable apiVersion (a JSON array or object) instead aborts the request
with result `"error"`: `dict.get` raises `TypeError` at the `api_map`
lookup. -/
theorem c4_unregistered_pair_skipped :
    (∀ (cluster : Json → Json → Except String String) (owner : String)
       (r : Json) (info : FieldInfo) (body : Json) (l1 l2 : List Json),
       checkFields r = .ok (some info) →
       transformResource owner info.kind (owner ++ "-" ++ pyStr info.name) r = .ok body →
       ((hashableKey info.apiVersion = true ∧ registeredApi info.apiVersion = false) ∨
        (registeredApi info.apiVersion = true ∧ hashableKey info.kind = true ∧
          registeredKind info.kind = false)) →
       (runLoop cluster owner l1 initLoop).failure = none →
       (runLoop cluster owner (l1 ++ r :: l2) initLoop).created
         = (runLoop cluster owner (l1 ++ l2) initLoop).created ∧
       (runLoop cluster owner (l1 ++ r :: l2) initLoop).sent
         = (runLoop cluster owner (l1 ++ l2) initLoop).sent ∧
       (runLoop cluster owner (l1 ++ r :: l2) initLoop).failure
         = (runLoop cluster owner (l1 ++ l2) initLoop).failure ∧
       r ∈ (runLoop cluster owner (l1 ++ r :: l2) initLoop).skipped ∧
       (execOutcome cluster owner (.ok (.arr (l1 ++ r :: l2)))).1
         = (execOutcome cluster owner (.ok (.arr (l1 ++ l2)))).1) ∧
    (execOutcome echoCluster "alice" (.ok (.arr [unhashableApiResource]))).1.result
      = "error" ∧
    (execOutcome echoCluster "alice" (.ok (.arr [unhashableApiResource]))).2.skipped
      = [] := by
  refine ⟨?_, rfl, rfl⟩
  intro cluster owner r info body l1 l2 hcf htr hreg hpre
  have hskip : stepOf owner r = .ok .skip := stepOf_skip_of_unregistered hcf htr hreg
  obtain ⟨hc, hs, hf, hm⟩ := runLoop_insert_skip hskip l1 l2 hpre
  exact ⟨hc, hs, hf, hm, execOutcome_resp_congr hc hf⟩

/-- Witness for C4: a `(v1, Pod)` resource between two Services is skipped
and the surrounding batch behaves as if it were absent. -/
theorem c4_unregistered_pair_skipped_witness :
    podResource ∈ (runLoop echoCluster "alice"
        ([svcResource "a"] ++ podResource :: [svcResource "b"]) initLoop).skipped ∧
    (execOutcome echoCluster "alice"
        (.ok (.arr ([svcResource "a"] ++ podResource :: [svcResource "b"])))).1
      = (execOutcome echoCluster "alice"
          (.ok (.arr ([svcResource "a"] ++ [svcResource "b"])))).1 :=
  ⟨(c4_unregistered_pair_skipped.1 echoCluster "alice" podResource
      ⟨.str "Pod", .str "v1", .str "p", .str "default"⟩ podBodyAlice
      [svcResource "a"] [svcResource "b"] rfl rfl (.inl (by decide)) rfl).2.2.2.1,
   (c4_unregistered_pair_skipped.1 echoCluster "alice" podResource
      ⟨.str "Pod", .str "v1", .str "p", .str "default"⟩ podBodyAlice
      [svcResource "a"] [svcResource "b"] rfl rfl (.inl (by decide)) rfl).2.2.2.2⟩

theorem stepOf_skip_of_missing (owner : String) (fs : List (String × Json))
    (hmeta : jlookup fs "metadata" = none ∨ ∃ mfs, jlookup fs "metadata" = some (.obj mfs))
    (hmiss : jlookup fs "kind" = none ∨ jlookup fs "apiVersion" = none ∨
      (Json.obj fs).getPath ["metadata", "name"] = none) :
    stepOf owner (.obj fs) = .ok .skip := by
  have hcf : checkFields (.obj fs) = .ok none := by
    simp only [checkFields, pyGet, Bind.bind, Except.bind]
    rcases hmeta with hm | ⟨mfs, hm⟩
    · rw [hm]
      simp [truthy, jlookup, Option.getD, pure, Except.pure]
    · rw [hm]
      simp only [Option.getD]
      rcases hmiss with hk | hapi | hname
      · rw [hk]
        simp [truthy, Option.getD, pure, Except.pure]
      · rw [hapi]
        simp [truthy, Option.getD, pure, Except.pure]
      · have hn : jlookup mfs "name" = none := by
          cases hn0 : jlookup mfs "name" with
          | none => rfl
          | some v => simp [Json.getPath, hm, hn0] at hname
        rw [hn]
        simp [truthy, Option.getD, pure, Except.pure]
  simp [stepOf, hcf, Bind.bind, Except.bind, pure, Except.pure]

/-- A resource whose `metadata` value is a string: `resource.get("metadata",
{}).get("name")` raises `AttributeError`. -/
def badMetadataResource : Json := .obj [("metadata", .str "x")]

/-- Claim C10, counterexample: an array element that is missing `kind` and
`apiVersion` but whose `metadata` is a (non-dict) string makes the whole
request terminate with result `"error"` instead of being skipped — reading
`metadata.name` raises before the malformed-resource filter can skip it. -/
theorem c10_nonobject_metadata_errors :
    (execOutcome echoCluster "alice" (.ok (.arr [badMetadataResource]))).1.result
      = "error" ∧
    (execOutcome echoCluster "alice" (.ok (.arr [badMetadataResource]))).2.skipped = [] :=
  ⟨rfl, rfl⟩

/-- Claim C10 (corrected): for an object resource whose `metadata`, when
present, is itself an object, a missing `kind`, `apiVersion`, or
`metadata.name` makes the orchestrator skip the resource (logging it) and
continue: removing it from the array changes neither the creation calls, the
created list, the failure, nor the returned payload, and it is never sent to
the cluster. -/
theorem c10_missing_fields_skipped
    (cluster : Json → Json → Except String String) (owner : String)
    (fs : List (String × Json)) (l1 l2 : List Json)
    (hmeta : jlookup fs "metadata" = none ∨ ∃ mfs, jlookup fs "metadata" = some (.obj mfs))
    (hmiss : jlookup fs "kind" = none ∨ jlookup fs "apiVersion" = none ∨
      (Json.obj fs).getPath ["metadata", "name"] = none)
    (hpre : (runLoop cluster owner l1 initLoop).failure = none) :
    (runLoop cluster owner (l1 ++ Json.obj fs :: l2) initLoop).created
      = (runLoop cluster owner (l1 ++ l2) initLoop).created ∧
    (runLoop cluster owner (l1 ++ Json.obj fs :: l2) initLoop).sent
      = (runLoop cluster owner (l1 ++ l2) initLoop).sent ∧
    (runLoop cluster owner (l1 ++ Json.obj fs :: l2) initLoop).failure
      = (runLoop cluster owner (l1 ++ l2) initLoop).failure ∧
    Json.obj fs ∈ (runLoop cluster owner (l1 ++ Json.obj fs :: l2) initLoop).skipped ∧
    (execOutcome cluster owner (.ok (.arr (l1 ++ Json.obj fs :: l2)))).1
      = (execOutcome cluster owner (.ok (.arr (l1 ++ l2)))).1 := by
  have hskip : stepOf owner (.obj fs) = .ok .skip :=
    stepOf_skip_of_missing owner fs hmeta hmiss
  obtain ⟨hc, hs, hf, hm⟩ := runLoop_insert_skip hskip l1 l2 hpre
  exact ⟨hc, hs, hf, hm, execOutcome_resp_congr hc hf⟩

/-- Witness for C10: a resource `{"apiVersion": "core/v1", "metadata":
{"name": "x"}}` with no `kind` is skipped and the batch behaves as if it were
absent. -/
theorem c10_missing_fields_skipped_witness :
    Json.obj [("apiVersion", .str "core/v1"), ("metadata", .obj [("name", .str "x")])]
        ∈ (runLoop echoCluster "alice"
            ([svcResource "a"]
              ++ Json.obj [("apiVersion", .str "core/v1"),
                           ("metadata", .obj [("name", .str "x")])] :: [svcResource "b"])
            initLoop).skipped ∧
    (execOutcome echoCluster "alice"
        (.ok (.arr ([svcResource "a"]
          ++ Json.obj [("apiVersion", .str "core/v1"),
                       ("metadata", .obj [("name", .str "x")])] :: [svcResource "b"])))).1
      = (execOutcome echoCluster "alice"
          (.ok (.arr ([svcResource "a"] ++ [svcResource "b"])))).1 :=
  ⟨(c10_missing_fields_skipped echoCluster "alice"
      [("apiVersion", .str "core/v1"), ("metadata", .obj [("name", .str "x")])]
      [svcResource "a"] [svcResource "b"]
      (.inr ⟨[("name", .str "x")], rfl⟩) (.inl rfl) rfl).2.2.2.1,
   (c10_missing_fields_skipped echoCluster "alice"
      [("apiVersion", .str "core/v1"), ("metadata", .obj [("name", .str "x")])]
      [svcResource "a"] [svcResource "b"]
      (.inr ⟨[("name", .str "x")], rfl⟩) (.inl rfl) rfl).2.2.2.2⟩

/-- Claim C5 (confirmed): whenever the script's standard output is not
exactly one JSON array — a decode error, a nonzero exit, or any non-array
JSON document — the request fails with the 500 `MalformedOutput`-class
message and no creation call is ever issued to the cluster. -/
theorem malformed_message_startsWith :
    strStartsWith
      "Script failed to return valid Kubernetes resource definitions: Script did not return a list of Kubernetes resources."
      "Script failed to return valid Kubernetes resource definitions: " = true := by
  decide

theorem c5_non_array_output_fails_without_creation
    (cluster : Json → Json → Except String String) (owner : String)
    (scriptOutput : Except String Json)
    (h : ∀ l, scriptOutput ≠ .ok (.arr l)) :
    (execOutcome cluster owner scriptOutput).1.result = "failed" ∧
    (execOutcome cluster owner scriptOutput).1.statusCode = some 500 ∧
    (execOutcome cluster owner scriptOutput).2.sent = [] ∧
    strStartsWith (execOutcome cluster owner scriptOutput).1.message
      "Script failed to return valid Kubernetes resource definitions: " = true := by
  cases scriptOutput with
  | error e => exact ⟨rfl, rfl, rfl, strStartsWith_self_append _ _⟩
  | ok j =>
    cases j with
    | arr l => exact absurd rfl (h l)
    | null => exact ⟨rfl, rfl, rfl, malformed_message_startsWith⟩
    | bool b => exact ⟨rfl, rfl, rfl, malformed_message_startsWith⟩
    | num n => exact ⟨rfl, rfl, rfl, malformed_message_startsWith⟩
    | str s => exact ⟨rfl, rfl, rfl, malformed_message_startsWith⟩
    | obj fs => exact ⟨rfl, rfl, rfl, malformed_message_startsWith⟩

/-- Witness for C5: a script that printed a JSON object instead of an array.
-/
theorem c5_non_array_output_fails_without_creation_witness :
    (execOutcome echoCluster "alice" (.ok (.obj []))).1.result = "failed" ∧
    (execOutcome echoCluster "alice" (.ok (.obj []))).1.statusCode = some 500 ∧
    (execOutcome echoCluster "alice" (.ok (.obj []))).2.sent = [] ∧
    strStartsWith (execOutcome echoCluster "alice" (.ok (.obj []))).1.message
      "Script failed to return valid Kubernetes resource definitions: " = true :=
  c5_non_array_output_fails_without_creation echoCluster "alice" (.ok (.obj []))
    (fun _l hl => Json.noConfusion (Except.ok.inj hl))

/-- The list of resources a parse outcome carries into the loop. -/
def resourcesOf (scriptOutput : Except String Json) : List Json :=
  match scriptOutput with
  | .ok (.arr l) => l
  | _ => []

theorem execOutcome_snd_arr (cluster : Json → Json → Except String String)
    (owner : String) (l : List Json) :
    (execOutcome cluster owner (.ok (.arr l))).2 = runLoop cluster owner l initLoop := by
  simp only [execOutcome]
  split <;> rfl

/-- Claim C8, counterexample: two requests by the distinct owners `"alice"`
and `"alice-x"` both apply a resource named `"alice-x-y"` — the `-` join
lets distinct owners collide, so the uniqueness half of the claim fails. -/
theorem c8_distinct_owners_name_collision :
    ("alice" : String) ≠ "alice-x" ∧
    ((execOutcome echoCluster "alice" (.ok (.arr [svcResource "x-y"]))).2.sent.map
      (fun p => p.2.getPath ["metadata", "name"])) = [some (.str "alice-x-y")] ∧
    ((execOutcome echoCluster "alice-x" (.ok (.arr [svcResource "y"]))).2.sent.map
      (fun p => p.2.getPath ["metadata", "name"])) = [some (.str "alice-x-y")] :=
  ⟨by decide, rfl, rfl⟩

/-- Claim C8 (corrected): every body the orchestrator sends to the cluster
carries `metadata.name = owner ++ "-" ++ str(originalName)` for the original
`metadata.name` of some resource in the parsed array; and the uniqueness
consequence holds only for owners whose identities contain no `"-"` — for
such distinct owners the prefixed names can never coincide. -/
theorem c8_owner_prefixed_names :
    (∀ (cluster : Json → Json → Except String String) (owner : String)
       (scriptOutput : Except String Json) (p : Json × Json),
        p ∈ (execOutcome cluster owner scriptOutput).2.sent →
        ∃ r n, r ∈ resourcesOf scriptOutput ∧
          r.getPath ["metadata", "name"] = some n ∧
          p.2.getPath ["metadata", "name"] = some (.str (owner ++ "-" ++ pyStr n))) ∧
    (∀ o1 o2 n1 n2 : String, '-' ∉ o1.data → '-' ∉ o2.data → o1 ≠ o2 →
        o1 ++ "-" ++ n1 ≠ o2 ++ "-" ++ n2) := by
  constructor
  · intro cluster owner scriptOutput p hp
    match scriptOutput with
    | .error e => exact absurd hp (by simp [execOutcome, initLoop])
    | .ok (.null) => exact absurd hp (by simp [execOutcome, initLoop])
    | .ok (.bool b) => exact absurd hp (by simp [execOutcome, initLoop])
    | .ok (.num n) => exact absurd hp (by simp [execOutcome, initLoop])
    | .ok (.str s) => exact absurd hp (by simp [execOutcome, initLoop])
    | .ok (.obj fs) => exact absurd hp (by simp [execOutcome, initLoop])
    | .ok (.arr l) =>
      rw [execOutcome_snd_arr] at hp
      rcases runLoop_sent_origin l initLoop p hp with h0 | ⟨r, hr, kind, n, hsend⟩
      · exact absurd h0 (by simp [initLoop])
      · obtain ⟨horig, hbody⟩ := stepOf_send_facts hsend
        exact ⟨r, n, hr, horig, hbody⟩
  · exact owner_dash_distinct

/-- The body the orchestrator submits for `nginxResource` under owner
`"alice"`. -/
def nginxBodyAlice : Json :=
  .obj [("kind", .str "Deployment"), ("apiVersion", .str "apps/v1"),
        ("metadata", .obj [("name", .str "alice-nginx"), ("namespace", .str "default"),
                           ("labels", .obj [("lab-owner", .str "alice")])]),
        ("spec", .obj
          [("selector", .obj [("matchLabels", .obj [("app", .str "alice-nginx")])]),
           ("template", .obj
             [("metadata", .obj [("labels", .obj [("app", .str "alice-nginx")])])])])]

/-- Witness for C8: the prefixing fact at the C1 scenario's sent body, and
the uniqueness fact for the dash-free owners `"alice"` and `"bob"`. -/
theorem c8_owner_prefixed_names_witness :
    (∃ r n, r ∈ resourcesOf (.ok (.arr [nginxResource])) ∧
      r.getPath ["metadata", "name"] = some n ∧
      (Json.str "default", nginxBodyAlice).2.getPath ["metadata", "name"]
        = some (.str ("alice" ++ "-" ++ pyStr n))) ∧
    ("alice" ++ "-" ++ "x" : String) ≠ "bob" ++ "-" ++ "x" :=
  ⟨c8_owner_prefixed_names.1 echoCluster "alice" (.ok (.arr [nginxResource]))
      (Json.str "default", nginxBodyAlice) (by exact List.mem_singleton_self _),
   c8_owner_prefixed_names.2 "alice" "bob" "x" "x" (by decide) (by decide) (by decide)⟩

/-- A world with a cache hit whose `git pull` fails and whose reclone
succeeds. -/
def pullFailWorld : GitWorld :=
  ⟨true,
   fun k => if k = "lab_repo:github_com_a_b:main"
            then some "/data/lab_repo_cache/github_com_a_b_main" else none,
   fun _ => true, fun _ => true,
   fun _ => .error "fatal: could not fast-forward", .ok ()⟩

/-- Claim C6 (confirmed): on a cache hit whose fast-forward pull fails,
`_get_repo_path` deletes the index entry and falls through to a full reclone
of the same (source, revision) into the cached directory; with the clone
succeeding, the resolve returns the path — the pull failure alone is never a
hard error. -/
theorem c6_pull_failure_recloned
    (w : GitWorld) (githubPat : Option String)
    (cacheDir source revision cached e : String)
    (hup : w.redisUp = true)
    (hhit : w.redisGet (repoKeyOf source revision) = some cached)
    (hne : cached.isEmpty = false)
    (hex : w.pathExists cached = true)
    (hpull : w.pullResult cached = .error e)
    (hclone : w.cloneResult = .ok ()) :
    (getRepoPath w githubPat cacheDir source revision).outcome = .ok cached ∧
    (getRepoPath w githubPat cacheDir source revision).effects
      = [.gitPull cached, .redisDelete (repoKeyOf source revision)]
        ++ (if w.pathIsDir cached then [RepoEffect.rmtree cached] else [])
        ++ [.gitClone (authSourceOf githubPat source) revision cached,
            .redisSet (repoKeyOf source revision) cached,
            .redisExpire (repoKeyOf source revision) 86400] := by
  constructor
  · simp [getRepoPath, cloneSeq, hup, hhit, hne, hex, hpull, hclone]
  · simp [getRepoPath, cloneSeq, hup, hhit, hne, hex, hpull, hclone]

/-- Witness for C6: the concrete pull-failure world. -/
theorem c6_pull_failure_recloned_witness :
    (getRepoPath pullFailWorld none "/data/lab_repo_cache"
        "https://github.com/a/b" "main").outcome
      = .ok "/data/lab_repo_cache/github_com_a_b_main" ∧
    (getRepoPath pullFailWorld none "/data/lab_repo_cache"
        "https://github.com/a/b" "main").effects
      = [.gitPull "/data/lab_repo_cache/github_com_a_b_main",
         .redisDelete (repoKeyOf "https://github.com/a/b" "main")]
        ++ (if pullFailWorld.pathIsDir "/data/lab_repo_cache/github_com_a_b_main"
            then [RepoEffect.rmtree "/data/lab_repo_cache/github_com_a_b_main"] else [])
        ++ [.gitClone (authSourceOf none "https://github.com/a/b") "main"
              "/data/lab_repo_cache/github_com_a_b_main",
            .redisSet (repoKeyOf "https://github.com/a/b" "main")
              "/data/lab_repo_cache/github_com_a_b_main",
            .redisExpire (repoKeyOf "https://github.com/a/b" "main") 86400] :=
  c6_pull_failure_recloned pullFailWorld none "/data/lab_repo_cache"
    "https://github.com/a/b" "main" "/data/lab_repo_cache/github_com_a_b_main"
    "fatal: could not fast-forward" rfl rfl rfl rfl rfl rfl

/-- A world with a cache miss whose shallow clone fails. -/
def cloneFailWorld : GitWorld :=
  ⟨true, fun _ => none, fun _ => false, fun _ => false,
   fun _ => .ok (), .error "fatal: Authentication failed"⟩

/-- Claim C7, counterexample: when the clone fails with stderr
`"fatal: Authentication failed"`, the request fails with the fixed detail
string, which does not contain that stderr — the error does not carry the
underlying git command's stderr (it is only logged). -/
theorem c7_clone_error_detail_lacks_stderr :
    (getRepoPath cloneFailWorld none "/data/lab_repo_cache"
        "https://github.com/a/b" "main").outcome = .error (500, cloneFailDetail) ∧
    containsSubstring cloneFailDetail "fatal: Authentication failed" = false ∧
    (getRepoPath cloneFailWorld none "/data/lab_repo_cache"
        "https://github.com/a/b" "main").effects
      = [.gitClone "https://github.com/a/b" "main"
           "/data/lab_repo_cache/github_com_a_b_main"] :=
  ⟨rfl, by decide, rfl⟩

/-- Claim C7 (corrected): every resolve that reaches the clone and whose
clone fails yields a 500 error with the fixed generic detail (the stderr is
logged, not returned); and when the index store is unreachable the resolve
fails with a 503 before any effect — in particular before any clone — is
performed. -/
theorem c7_clone_failure_and_redis_down :
    (∀ (w : GitWorld) (githubPat : Option String) (cacheDir source revision e : String),
       w.redisUp = true → w.cloneResult = .error e →
       (∀ cached, w.redisGet (repoKeyOf source revision) = some cached →
         cached.isEmpty = false → w.pathExists cached = true →
         ∃ e', w.pullResult cached = .error e') →
       (getRepoPath w githubPat cacheDir source revision).outcome
         = .error (500, cloneFailDetail)) ∧
    (∀ (w : GitWorld) (githubPat : Option String) (cacheDir source revision : String),
       w.redisUp = false →
       getRepoPath w githubPat cacheDir source revision
         = ⟨[], .error (503, redisDownDetail)⟩) := by
  constructor
  · intro w gp cd src rev e hup hclone hnohit
    cases hget : w.redisGet (repoKeyOf src rev) with
    | none => simp [getRepoPath, cloneSeq, hup, hget, hclone]
    | some cached =>
      by_cases hcond : (!cached.isEmpty && w.pathExists cached) = true
      · have hc1 : cached.isEmpty = false := by
          rcases Bool.and_eq_true_iff.mp hcond with ⟨h1, _⟩
          simpa using h1
        have hc2 : w.pathExists cached = true :=
          (Bool.and_eq_true_iff.mp hcond).2
        obtain ⟨e', hpull⟩ := hnohit cached hget hc1 hc2
        simp [getRepoPath, cloneSeq, hup, hget, hcond, hpull, hclone]
      · simp [getRepoPath, cloneSeq, hup, hget, hcond, hclone]
  · intro w gp cd src rev h
    simp [getRepoPath, h]

/-- A world in which the index store is down. -/
def redisDownWorld : GitWorld :=
  ⟨false, fun _ => none, fun _ => false, fun _ => false, fun _ => .ok (), .ok ()⟩

/-- Witness for C7: the corrected statement at the concrete clone-failure and
redis-down worlds. -/
theorem c7_clone_failure_and_redis_down_witness :
    (getRepoPath cloneFailWorld none "/data/lab_repo_cache"
        "https://github.com/a/b" "main").outcome = .error (500, cloneFailDetail) ∧
    getRepoPath redisDownWorld none "/data/lab_repo_cache"
        "https://github.com/a/b" "main" = ⟨[], .error (503, redisDownDetail)⟩ :=
  ⟨c7_clone_failure_and_redis_down.1 cloneFailWorld none "/data/lab_repo_cache"
      "https://github.com/a/b" "main" "fatal: Authentication failed" rfl rfl
      (fun _cached hc _ _ => Option.noConfusion hc),
   c7_clone_failure_and_redis_down.2 redisDownWorld none "/data/lab_repo_cache"
      "https://github.com/a/b" "main" rfl⟩

/-- A world with a cache hit whose `git pull` succeeds. -/
def pullOkWorld : GitWorld :=
  ⟨true,
   fun k => if k = "lab_repo:github_com_a_b:main"
            then some "/data/lab_repo_cache/github_com_a_b_main" else none,
   fun _ => true, fun _ => true, fun _ => .ok (), .ok ()⟩

/-- Claim C9, counterexample: a cache-hit resolve whose pull succeeds returns
the cached path after a single `git pull` and performs no index write at all
— in particular it does not refresh the 24-hour expiry, contradicting
"refreshed on each subsequent successful resolve". -/
theorem c9_cache_hit_does_not_refresh :
    getRepoPath pullOkWorld none "/data/lab_repo_cache" "https://github.com/a/b" "main"
      = ⟨[.gitPull "/data/lab_repo_cache/github_com_a_b_main"],
         .ok "/data/lab_repo_cache/github_com_a_b_main"⟩ ∧
    ((getRepoPath pullOkWorld none "/data/lab_repo_cache"
        "https://github.com/a/b" "main").effects.filter
      (fun eff => match eff with
        | .redisSet _ _ => true
        | .redisExpire _ _ => true
        | _ => false)) = [] :=
  ⟨rfl, rfl⟩

/-- Claim C9 (corrected): the index entry is written with its 24-hour expiry
exactly when a resolve performs a successful clone (the first resolve, and
any later resolve that falls back to recloning); a cache-hit resolve whose
pull succeeds performs no index write and so does not refresh the entry. -/
theorem c9_expiry_written_only_on_clone :
    (∀ (w : GitWorld) (githubPat : Option String) (cacheDir source revision : String),
       w.redisUp = true → w.redisGet (repoKeyOf source revision) = none →
       w.cloneResult = .ok () →
       (getRepoPath w githubPat cacheDir source revision).effects
         = (if w.pathExists (defaultPathOf cacheDir source revision)
               && w.pathIsDir (defaultPathOf cacheDir source revision)
            then [RepoEffect.rmtree (defaultPathOf cacheDir source revision)] else [])
           ++ [.gitClone (authSourceOf githubPat source) revision
                 (defaultPathOf cacheDir source revision),
               .redisSet (repoKeyOf source revision) (defaultPathOf cacheDir source revision),
               .redisExpire (repoKeyOf source revision) 86400] ∧
       (getRepoPath w githubPat cacheDir source revision).outcome
         = .ok (defaultPathOf cacheDir source revision)) ∧
    (∀ (w : GitWorld) (githubPat : Option String) (cacheDir source revision cached : String),
       w.redisUp = true → w.redisGet (repoKeyOf source revision) = some cached →
       cached.isEmpty = false → w.pathExists cached = true →
       w.pullResult cached = .ok () →
       getRepoPath w githubPat cacheDir source revision
         = ⟨[.gitPull cached], .ok cached⟩) := by
  constructor
  · intro w gp cd src rev hup hget hclone
    constructor
    · simp [getRepoPath, cloneSeq, hup, hget, hclone]
    · simp [getRepoPath, cloneSeq, hup, hget, hclone]
  · intro w gp cd src rev cached hup hget hne hex hpull
    simp [getRepoPath, cloneSeq, hup, hget, hne, hex, hpull]

/-- A world with an empty cache and a succeeding clone. -/
def cloneOkWorld : GitWorld :=
  ⟨true, fun _ => none, fun _ => false, fun _ => false, fun _ => .ok (), .ok ()⟩

/-- Witness for C9: the corrected statement at the concrete first-clone and
cache-hit worlds. -/
theorem c9_expiry_written_only_on_clone_witness :
    (getRepoPath cloneOkWorld none "/data/lab_repo_cache"
        "https://github.com/a/b" "main").outcome
      = .ok (defaultPathOf "/data/lab_repo_cache" "https://github.com/a/b" "main") ∧
    getRepoPath pullOkWorld none "/data/lab_repo_cache" "https://github.com/a/b" "main"
      = ⟨[.gitPull "/data/lab_repo_cache/github_com_a_b_main"],
         .ok "/data/lab_repo_cache/github_com_a_b_main"⟩ :=
  ⟨(c9_expiry_written_only_on_clone.1 cloneOkWorld none "/data/lab_repo_cache"
      "https://github.com/a/b" "main" rfl rfl rfl).2,
   c9_expiry_written_only_on_clone.2 pullOkWorld none "/data/lab_repo_cache"
      "https://github.com/a/b" "main" "/data/lab_repo_cache/github_com_a_b_main"
      rfl rfl rfl rfl rfl⟩
